import Mathlib

/-!
Verification development for the StreamBot source (src/index.ts), a
single-session Discord media-streaming bot.  The definitions below are a
shallow embedding of the session state, the video catalog, the command
handlers of the messageCreate event, the voiceStateUpdate handler, the
playVideo supervision routine with its cleanup, and the process
termination handlers.  External collaborators (the Discord client, the
voice transport, ffmpeg, the YouTube extraction helpers) appear as
oracle parameters: each handler takes their outcome as an argument and
the theorems quantify over all outcomes.
-/

namespace StreamBot

/-- One entry of the local video catalog (index.ts lines 77-81):
the file stem with every space replaced by an underscore, and the path. -/
structure VideoEntry where
  name : String
  path : String
deriving DecidableEq, Repr

/-- The channelInfo record inside streamStatus (index.ts lines 99-103). -/
structure ChannelInfo where
  guildId : String
  channelId : String
  cmdChannelId : String
deriving DecidableEq, Repr

/-- The mutable streamStatus singleton (index.ts lines 95-104). -/
structure StreamStatus where
  joined : Bool
  joinsucc : Bool
  playing : Bool
  channelInfo : ChannelInfo
deriving DecidableEq, Repr

/-- The configuration fields the handlers read (config.js is outside the
embedded source; only the identifiers threaded through the handlers are
kept). -/
structure Config where
  guildId : String
  videoChannelId : String
  cmdChannelId : String
deriving DecidableEq, Repr

/-- Result of the JavaScript Number() conversion when it is not NaN: a
finite value, kept as the exact decimal mantissa / 10 ^ scale of the
literal, or an infinity.  Number() itself rounds the finite value to
binary64; the grammar (and hence NaN-ness) is captured exactly here,
while theorems that use a finite value restrict themselves to inputs on
which that rounding is the identity (integers up to 2 ^ 53). -/
inductive JsNum where
  | finite (mantissa : Int) (scale : Nat)
  | inf (negative : Bool)
deriving DecidableEq, Repr

/-- Negation of a parsed numeric value, for a leading minus sign. -/
def JsNum.negate : JsNum → JsNum
  | JsNum.finite m s => JsNum.finite (-m) s
  | JsNum.inf b => JsNum.inf (!b)

/-- Value of a list of decimal digit characters read left to right. -/
def natOfDigits (l : List Char) : Nat :=
  l.foldl (fun a c => a * 10 + (c.toNat - 48)) 0

/-- Numeric value of a digit character in bases up to 36: 0-9, then
lowercase and uppercase letters; 99 (never a valid digit) otherwise. -/
def digitCharVal (c : Char) : Nat :=
  if c.isDigit then c.toNat - 48
  else if 'a' ≤ c ∧ c ≤ 'z' then c.toNat - 87
  else if 'A' ≤ c ∧ c ≤ 'Z' then c.toNat - 55
  else 99

/-- Whether c is a digit of the given base. -/
def isRadixDigit (b : Nat) (c : Char) : Bool :=
  digitCharVal c < b

/-- Value of a digit list in the given base, read left to right. -/
def natOfBase (b : Nat) (l : List Char) : Nat :=
  l.foldl (fun a c => a * b + digitCharVal c) 0

/-- A 0x / 0o / 0b integer literal body: one or more digits of the base,
nothing else (no sign, no fraction, no exponent). -/
def jsRadix (b : Nat) (l : List Char) : Option JsNum :=
  if l ≠ [] ∧ l.all (isRadixDigit b) then some (JsNum.finite (natOfBase b l) 0)
  else none

/-- The ExponentPart of the Number() grammar applied to the remainder of
a decimal literal: the empty remainder contributes exponent 0, e or E
followed by an optionally signed digit string contributes that exponent,
and anything else makes the whole literal NaN. -/
def parseExponent (l : List Char) : Option Int :=
  if l = [] then some 0
  else if l.head? = some 'e' ∨ l.head? = some 'E' then
    let t := l.tail
    if t.head? = some '+' then
      if t.tail ≠ [] ∧ t.tail.all Char.isDigit then some ((natOfDigits t.tail : Int))
      else none
    else if t.head? = some '-' then
      if t.tail ≠ [] ∧ t.tail.all Char.isDigit then some (-(natOfDigits t.tail : Int))
      else none
    else
      if t ≠ [] ∧ t.all Char.isDigit then some ((natOfDigits t : Int))
      else none
  else none

/-- Exact value of a decimal literal with combined digit value, fraction
length and exponent: digits * 10 ^ (x - fracLen), folded into the
mantissa / 10 ^ scale form. -/
def jsFinite (digits : Nat) (fracLen : Nat) (x : Int) : JsNum :=
  let e : Int := x - fracLen
  if 0 ≤ e then JsNum.finite ((digits : Int) * 10 ^ e.toNat) 0
  else JsNum.finite (digits : Int) (-e).toNat

/-- The StrUnsignedDecimalLiteral production of the Number() grammar:
the literal Infinity, or digits with an optional .digits fraction (at
least one digit on one side of the dot) and an optional exponent part. -/
def jsUnsignedDecimal (cs : List Char) : Option JsNum :=
  if cs = "Infinity".toList then some (JsNum.inf false)
  else
    let ip := cs.takeWhile Char.isDigit
    let rest1 := cs.drop ip.length
    if rest1.head? = some '.' then
      let fp := rest1.tail.takeWhile Char.isDigit
      let rest2 := rest1.tail.drop fp.length
      if ip = [] ∧ fp = [] then none
      else
        match parseExponent rest2 with
        | some x => some (jsFinite (natOfDigits ip * 10 ^ fp.length + natOfDigits fp) fp.length x)
        | none => none
    else
      if ip = [] then none
      else
        match parseExponent rest1 with
        | some x => some (jsFinite (natOfDigits ip) 0 x)
        | none => none

/-- JavaScript Number() on a whitespace-free token, following the
StringNumericLiteral grammar: the empty string is 0; 0x / 0X, 0o / 0O
and 0b / 0B introduce unsigned non-decimal integer literals; otherwise
an optional sign precedes an unsigned decimal literal or Infinity.
none models NaN, and the grammar — hence which tokens are NaN — is
exact.  The finite value kept is the exact mathematical value of the
literal; Number() rounds it to binary64, so theorems using the value
confine themselves to the range where that rounding changes nothing. -/
def jsNumber (s : String) : Option JsNum :=
  let cs := s.toList
  if cs = [] then some (JsNum.finite 0 0)
  else if cs.head? = some '0' ∧ (cs[1]? = some 'x' ∨ cs[1]? = some 'X') then
    jsRadix 16 (cs.drop 2)
  else if cs.head? = some '0' ∧ (cs[1]? = some 'o' ∨ cs[1]? = some 'O') then
    jsRadix 8 (cs.drop 2)
  else if cs.head? = some '0' ∧ (cs[1]? = some 'b' ∨ cs[1]? = some 'B') then
    jsRadix 2 (cs.drop 2)
  else if cs.head? = some '-' then (jsUnsignedDecimal cs.tail).map JsNum.negate
  else if cs.head? = some '+' then jsUnsignedDecimal cs.tail
  else jsUnsignedDecimal cs

/-- The JavaScript expression videos[videoIndex] where videoIndex is the
finite number (m / 10^s) - 1 (index.ts lines 163-166): indexing an array
with a negative or fractional number yields undefined, otherwise the
element at that position when it exists.  The index is the integer
(m - 10^s) over 10^s. -/
def jsArrayGet (vs : List VideoEntry) (m : Int) (s : Nat) : Option VideoEntry :=
  let num := m - 10 ^ s
  if 0 ≤ num ∧ num % 10 ^ s = 0 then
    vs[(num / 10 ^ s).toNat]?
  else none

/-- Catalog lookup inside the play handler (index.ts lines 162-169): when
Number(videoArg) is not NaN the 1-based index branch runs with the bounds
check videoIndex >= 0 && videoIndex < videos.length, otherwise the token
is matched exactly against the normalized names.  An infinite value
always fails the bounds check (Infinity - 1 is not below the length,
-Infinity - 1 is not non-negative), leaving video undefined. -/
def lookupVideo (vs : List VideoEntry) (tok : String) : Option VideoEntry :=
  match jsNumber tok with
  | some (JsNum.finite m s) =>
      let num := m - 10 ^ s
      if 0 ≤ num ∧ num < (vs.length : Int) * 10 ^ s then
        jsArrayGet vs m s
      else none
  | some (JsNum.inf _) => none
  | none => vs.find? (fun v => v.name = tok)

/-- Lookup on the optional first argument: a missing argument gives
Number(undefined) = NaN and the name search finds no entry whose string
name equals undefined, so the result is not-found. -/
def lookupVideoArg (vs : List VideoEntry) (tok : Option String) : Option VideoEntry :=
  match tok with
  | some t => lookupVideo vs t
  | none => none

/-- JavaScript template interpolation of a possibly-undefined string. -/
def optStr (s : Option String) : String :=
  match s with
  | some t => t
  | none => "undefined"

/-- JavaScript template interpolation of a boolean. -/
def jsBool (b : Bool) : String :=
  if b then "true" else "false"

/-- The user-visible notifications a handler can emit. -/
inductive Reply where
  | err (msg : String)
  | nowPlaying (title : String)
  | success (msg : String)
  | info (title body : String)
  | searchList (items : List String)
deriving DecidableEq, Repr

/-- A playVideo invocation: the stream source handed to the pipeline and
the optional presence title. -/
structure PlayStart where
  source : String
  title : Option String
deriving DecidableEq, Repr

/-- Result of running one command handler: the streamStatus afterwards,
the replies sent, whether a playback pipeline was started, the query a
search-based command actually submitted, whether the voice channel was
joined during the handling, and whether cancel was requested on the
current pipeline handle. -/
structure HandlerOut where
  st : StreamStatus
  replies : List Reply
  started : Option PlayStart
  searched : Option String := none
  joinedVoice : Bool := false
  cancelIssued : Bool := false
deriving DecidableEq, Repr

/-- The play command handler (index.ts lines 152-221).  The optional
video-parameter probe (lines 177-199) only adjusts the encoder options
held in streamOpts and logs on failure; it never touches streamStatus,
the replies or the control flow, so it does not appear in the state
model.  Voice join and stream creation are the external transport
acquisition; the model covers the executions in which they return. -/
def handlePlay (cfg : Config) (videos : List VideoEntry) (st : StreamStatus)
    (msgChannelId : String) (videoArg : Option String) : HandlerOut :=
  if st.joined then
    { st := st, replies := [Reply.err "Already joined"], started := none }
  else
    match lookupVideoArg videos videoArg with
    | none =>
        { st := st,
          replies := [Reply.err ("Video " ++ optStr videoArg ++ " not found")],
          started := none }
    | some video =>
        { st := { joined := true, joinsucc := st.joinsucc, playing := true,
                  channelInfo := { guildId := cfg.guildId,
                                   channelId := cfg.videoChannelId,
                                   cmdChannelId := msgChannelId } },
          replies := [Reply.nowPlaying (if video.name = "" then "Local Video" else video.name)],
          started := some { source := video.path, title := videoArg },
          joinedVoice := true }

/-- Outcome of the platform extraction used by the playlink handler:
getVideoUrl resolves to a direct media url, or its rejection is caught
and logged, leaving yturl null (index.ts lines 253-259). -/
inductive ExtractResult where
  | ok (url : String) (title : String)
  | failed
deriving DecidableEq, Repr

/-- The playlink command handler (index.ts lines 222-274).  isYt is the
ytdl.validateURL test on the link; extract is the paired
getInfo/getVideoUrl outcome for the YouTube branch.  Note that the voice
join, the stream creation and the streamStatus update all happen before
the extraction, and that the failed-extraction branch sends nothing. -/
def handlePlaylink (cfg : Config) (st : StreamStatus) (msgChannelId : String)
    (link : Option String) (isYt : Bool) (extract : ExtractResult) : HandlerOut :=
  if st.joined then
    { st := st, replies := [Reply.err "Already joined"], started := none }
  else
    let l := (link.getD "")
    if l = "" then
      { st := st, replies := [Reply.err "Please provide a link."], started := none }
    else
      let st' : StreamStatus :=
        { joined := true, joinsucc := st.joinsucc, playing := true,
          channelInfo := { guildId := cfg.guildId,
                           channelId := cfg.videoChannelId,
                           cmdChannelId := msgChannelId } }
      if isYt then
        match extract with
        | ExtractResult.ok url title =>
            { st := st', replies := [Reply.nowPlaying title],
              started := some { source := url, title := some title },
              joinedVoice := true }
        | ExtractResult.failed =>
            { st := st', replies := [], started := none, joinedVoice := true }
      else
        { st := st', replies := [Reply.nowPlaying "URL"],
          started := some { source := l, title := some "URL" },
          joinedVoice := true }

/-- The title/query extraction shared by ytplay and ytsearch (index.ts
lines 282 and 317): args.length > 1 ? args.slice(1).join(' ') : args[1]
|| args.shift() || ''.  With at most one element args[1] is undefined,
so the value is the first element when present and the empty string
otherwise. -/
def ytArgTitle (args : List String) : String :=
  if 1 < args.length then
    String.intercalate " " (args.drop 1)
  else
    ((args.get? 1).getD ((args.get? 0).getD ""))

/-- The ytplay command handler (index.ts lines 275-314).  ytUrlFromTitle
is the outcome of the extraction-by-title lookup (null on failure) and
searchResultTitle the title of the top search result, both obtained with
the extracted title; the streamStatus update happens after those await
but before the null test, and the branch in which either is missing
sends nothing. -/
def handleYtplay (cfg : Config) (st : StreamStatus) (msgChannelId : String)
    (args : List String) (ytUrlFromTitle : Option String)
    (searchResultTitle : Option String) : HandlerOut :=
  if st.joined then
    { st := st, replies := [Reply.err "Already joined"], started := none }
  else
    let title := ytArgTitle args
    if title = "" then
      { st := st, replies := [Reply.err "Please provide a video title."], started := none }
    else
      let st' : StreamStatus :=
        { joined := true, joinsucc := st.joinsucc, playing := true,
          channelInfo := { guildId := cfg.guildId,
                           channelId := cfg.videoChannelId,
                           cmdChannelId := msgChannelId } }
      match ytUrlFromTitle, searchResultTitle with
      | some url, some vtitle =>
          { st := st', replies := [Reply.nowPlaying vtitle],
            started := some { source := url, title := some vtitle },
            searched := some title, joinedVoice := true }
      | _, _ =>
          { st := st', replies := [], started := none,
            searched := some title, joinedVoice := true }

/-- The ytsearch command handler (index.ts lines 315-334): no session
guard and no state mutation; the query undergoes the same extraction as
ytplay and the result list is rendered when the search resolves. -/
def handleYtsearch (st : StreamStatus) (args : List String)
    (results : List String) : HandlerOut :=
  let query := ytArgTitle args
  if query = "" then
    { st := st, replies := [Reply.err "Please provide a search query."], started := none }
  else
    { st := st, replies := [Reply.searchList results], started := none,
      searched := some query }

/-- The stop command handler (index.ts lines 335-347): when not joined it
replies Already Stopped and returns; otherwise it requests cancellation
of the current pipeline handle and reports success.  The handler itself
mutates no field of streamStatus: the reset happens inside playVideo's
cleanup once the cancellation is observed. -/
def handleStop (st : StreamStatus) : HandlerOut :=
  if ¬ st.joined then
    { st := st, replies := [Reply.err "**Already Stopped!**"], started := none }
  else
    { st := st, replies := [Reply.success "Stopped playing video"], started := none,
      cancelIssued := true }

/-- The status command handler (index.ts lines 358-363). -/
def handleStatus (st : StreamStatus) : Reply :=
  Reply.info "Status"
    ("Joined: " ++ jsBool st.joined ++ "\nPlaying: " ++ jsBool st.playing)

/-- A voiceStateUpdate event as the handler reads it: whether the old and
new states belong to the bot user, the two channel ids and the guild of
the new state. -/
structure VoiceStateEvent where
  oldIsSelf : Bool
  newIsSelf : Bool
  oldChannelId : Option String
  newChannelId : Option String
  newGuildId : String
deriving DecidableEq, Repr

/-- The voiceStateUpdate handler (index.ts lines 107-132): a transition of
the bot from some channel to no channel clears the three flags, restores
channelInfo to the configured values and resets presence to idle; a
transition from no channel into some channel sets joined and, when the
target matches the recorded guild and channel, joinsucc. -/
def handleVoiceStateUpdate (cfg : Config) (st : StreamStatus)
    (ev : VoiceStateEvent) : StreamStatus :=
  let st1 :=
    if ev.oldIsSelf ∧ ev.oldChannelId.isSome ∧ ev.newChannelId.isNone then
      { joined := false, joinsucc := false, playing := false,
        channelInfo := { guildId := cfg.guildId,
                         channelId := cfg.videoChannelId,
                         cmdChannelId := cfg.cmdChannelId } }
    else st
  if ev.newIsSelf ∧ ev.newChannelId.isSome ∧ ev.oldChannelId.isNone then
    let succ :=
      if ev.newGuildId = st1.channelInfo.guildId ∧
         ev.newChannelId = some st1.channelInfo.channelId then true
      else st1.joinsucc
    { st1 with joined := true, joinsucc := succ }
  else st1

/-- Outcome of awaiting the cancelable pipeline promise inside playVideo:
the streamLivestreamVideo promise resolves with a result string, rejects
with CancelError after an explicit cancel, or rejects with any other
error. -/
inductive PipelineOutcome where
  | completed (res : String)
  | canceled
  | failed (err : String)
deriving DecidableEq, Repr

/-- Effects of cleanupStreamStatus together with the streamStatus it
leaves behind. -/
structure CleanupOut where
  leftVoice : Bool
  presenceIdle : Bool
  st : StreamStatus
deriving DecidableEq, Repr

/-- cleanupStreamStatus (index.ts lines 443-455): leaves the voice
transport, resets the presence to idle, clears the three flags and blanks
channelInfo, unconditionally. -/
def cleanupStreamStatus (_st : StreamStatus) : CleanupOut :=
  { leftVoice := true, presenceIdle := true,
    st := { joined := false, joinsucc := false, playing := false,
            channelInfo := { guildId := "", channelId := "", cmdChannelId := "" } } }

/-- Observable effects of one playVideo run (index.ts lines 415-440). -/
structure PlayRunOut where
  loggedError : Bool
  speaking : Bool
  videoStatus : Bool
  finishNoticeInitiated : Bool
  finishNoticeDelivered : Bool
  leftVoice : Bool
  presenceIdle : Bool
  finalStatus : StreamStatus
deriving DecidableEq, Repr

/-- playVideo's supervision of one pipeline run (index.ts lines 415-440).
The catch clause logs only when the rejection is not a CancelError; the
finally clause then turns speaking and video status off, calls
sendFinishMessage and finally cleanupStreamStatus.  sendFinishMessage
(lines 494-499) looks the command channel up in the cache and fires
channel.send without awaiting it, so a rejected send never propagates
into the finally block: sendFails below only affects whether the notice
is actually delivered, never whether cleanup runs. -/
def playVideoRun (st : StreamStatus) (outcome : PipelineOutcome)
    (channelCached : Bool) (sendFails : Bool) : PlayRunOut :=
  let logged :=
    match outcome with
    | PipelineOutcome.failed _ => true
    | _ => false
  let cl := cleanupStreamStatus st
  { loggedError := logged,
    speaking := false, videoStatus := false,
    finishNoticeInitiated := channelCached,
    finishNoticeDelivered := channelCached ∧ ¬ sendFails,
    leftVoice := cl.leftVoice, presenceIdle := cl.presenceIdle,
    finalStatus := cl.st }

/-- How a process termination begins: the bare exit event, or one of the
two handled termination signals (index.ts lines 604-616). -/
inductive Termination where
  | exitEvent
  | sigint
  | sigterm
deriving DecidableEq, Repr

/-- Number of sendCrash invocations made by the exit-event listener
(index.ts lines 604-606): one. -/
def exitListenerCrashCalls : Nat := 1

/-- Number of sendCrash invocations triggered by one termination.  The
SIGINT and SIGTERM listeners (index.ts lines 608-616) each call sendCrash
and then process.exit(); in Node, process.exit() emits the exit event,
which runs the exit listener and its own sendCrash call again. -/
def sendCrashCalls : Termination → Nat
  | Termination.exitEvent => exitListenerCrashCalls
  | Termination.sigint => 1 + exitListenerCrashCalls
  | Termination.sigterm => 1 + exitListenerCrashCalls

/-- C1: for every terminal outcome of the playback pipeline (natural
completion, cancellation by an explicit stop, or pipeline failure) the
cleanup sequence of playVideo's finally block — leaving the voice
transport, resetting presence to idle, and clearing joined, joinsucc,
playing and channelInfo — runs unconditionally, in particular whether or
not the finished-notification send fails. -/
theorem C1_cleanup_unconditional (st : StreamStatus) (outcome : PipelineOutcome)
    (channelCached sendFails : Bool) :
    (playVideoRun st outcome channelCached sendFails).leftVoice = true
    ∧ (playVideoRun st outcome channelCached sendFails).presenceIdle = true
    ∧ (playVideoRun st outcome channelCached sendFails).finalStatus =
        { joined := false, joinsucc := false, playing := false,
          channelInfo := { guildId := "", channelId := "", cmdChannelId := "" } } :=
  ⟨rfl, rfl, rfl⟩

/-- C2: a play or playlink command received while the joined flag is set
is rejected with the Already joined error and leaves every field of the
session state unchanged, for every current state with the flag set and
every argument. -/
theorem C2_active_session_guard (cfg : Config) (videos : List VideoEntry)
    (st : StreamStatus) (ch : String) (videoArg : Option String)
    (link : Option String) (isYt : Bool) (ex : ExtractResult)
    (hj : st.joined = true) :
    handlePlay cfg videos st ch videoArg =
      { st := st, replies := [Reply.err "Already joined"], started := none }
    ∧ handlePlaylink cfg st ch link isYt ex =
      { st := st, replies := [Reply.err "Already joined"], started := none } := by
  constructor <;> simp [handlePlay, handlePlaylink, hj]

/-- Witness for C2 at a concrete joined state. -/
theorem C2_active_session_guard_witness :
    (StreamStatus.mk true false false ⟨"g", "v", "c"⟩).joined = true
    ∧ handlePlay ⟨"g", "v", "c"⟩ [] (StreamStatus.mk true false false ⟨"g", "v", "c"⟩)
        "m" (some "1") =
        { st := StreamStatus.mk true false false ⟨"g", "v", "c"⟩,
          replies := [Reply.err "Already joined"], started := none }
    ∧ handlePlaylink ⟨"g", "v", "c"⟩ (StreamStatus.mk true false false ⟨"g", "v", "c"⟩)
        "m" (some "l") true ExtractResult.failed =
        { st := StreamStatus.mk true false false ⟨"g", "v", "c"⟩,
          replies := [Reply.err "Already joined"], started := none } :=
  ⟨rfl,
   (C2_active_session_guard ⟨"g", "v", "c"⟩ [] (StreamStatus.mk true false false ⟨"g", "v", "c"⟩)
     "m" (some "1") (some "l") true ExtractResult.failed rfl).1,
   (C2_active_session_guard ⟨"g", "v", "c"⟩ [] (StreamStatus.mk true false false ⟨"g", "v", "c"⟩)
     "m" (some "1") (some "l") true ExtractResult.failed rfl).2⟩

/-- C4: evaluation of the code at the failing input.  A playlink request
with a recognized platform link whose extraction fails, issued while
idle, leaves joined and playing set, sends no reply at all, starts no
pipeline, and keeps the voice channel joined; a ytplay request whose
extraction-by-title returns nothing behaves the same way.  This
contradicts the claim that extraction failure reports a user-visible
error, changes no state and leaves the session idle. -/
theorem C4_extraction_failure_divergence :
    ((handlePlaylink ⟨"g", "v", "c"⟩ ⟨false, false, false, ⟨"g", "v", "c"⟩⟩ "c"
        (some "https://youtube.example/watch") true ExtractResult.failed).st.joined = true
      ∧ (handlePlaylink ⟨"g", "v", "c"⟩ ⟨false, false, false, ⟨"g", "v", "c"⟩⟩ "c"
          (some "https://youtube.example/watch") true ExtractResult.failed).st.playing = true
      ∧ (handlePlaylink ⟨"g", "v", "c"⟩ ⟨false, false, false, ⟨"g", "v", "c"⟩⟩ "c"
          (some "https://youtube.example/watch") true ExtractResult.failed).replies = []
      ∧ (handlePlaylink ⟨"g", "v", "c"⟩ ⟨false, false, false, ⟨"g", "v", "c"⟩⟩ "c"
          (some "https://youtube.example/watch") true ExtractResult.failed).started = none
      ∧ (handlePlaylink ⟨"g", "v", "c"⟩ ⟨false, false, false, ⟨"g", "v", "c"⟩⟩ "c"
          (some "https://youtube.example/watch") true ExtractResult.failed).joinedVoice = true)
    ∧ ((handleYtplay ⟨"g", "v", "c"⟩ ⟨false, false, false, ⟨"g", "v", "c"⟩⟩ "c"
          ["yt", "some", "title"] none (some "T")).st.joined = true
      ∧ (handleYtplay ⟨"g", "v", "c"⟩ ⟨false, false, false, ⟨"g", "v", "c"⟩⟩ "c"
          ["yt", "some", "title"] none (some "T")).st.playing = true
      ∧ (handleYtplay ⟨"g", "v", "c"⟩ ⟨false, false, false, ⟨"g", "v", "c"⟩⟩ "c"
          ["yt", "some", "title"] none (some "T")).replies = []
      ∧ (handleYtplay ⟨"g", "v", "c"⟩ ⟨false, false, false, ⟨"g", "v", "c"⟩⟩ "c"
          ["yt", "some", "title"] none (some "T")).started = none
      ∧ (handleYtplay ⟨"g", "v", "c"⟩ ⟨false, false, false, ⟨"g", "v", "c"⟩⟩ "c"
          ["yt", "some", "title"] none (some "T")).joinedVoice = true) := by
  decide

/-- C5: a cancellation outcome is never logged as an error, every
non-cancellation failure is logged as an error, and the subsequent
handling — final state, finished notice, transport release, presence
reset — is identical for every pair of outcomes. -/
theorem C5_cancel_not_error (st : StreamStatus) (cached sendFails : Bool)
    (err res : String) :
    (playVideoRun st PipelineOutcome.canceled cached sendFails).loggedError = false
    ∧ (playVideoRun st (PipelineOutcome.failed err) cached sendFails).loggedError = true
    ∧ (playVideoRun st (PipelineOutcome.completed res) cached sendFails).loggedError = false
    ∧ ∀ o1 o2 : PipelineOutcome,
        (playVideoRun st o1 cached sendFails).finalStatus =
          (playVideoRun st o2 cached sendFails).finalStatus
        ∧ (playVideoRun st o1 cached sendFails).finishNoticeInitiated =
          (playVideoRun st o2 cached sendFails).finishNoticeInitiated
        ∧ (playVideoRun st o1 cached sendFails).leftVoice =
          (playVideoRun st o2 cached sendFails).leftVoice
        ∧ (playVideoRun st o1 cached sendFails).presenceIdle =
          (playVideoRun st o2 cached sendFails).presenceIdle :=
  ⟨rfl, rfl, rfl, fun _ _ => ⟨rfl, rfl, rfl, rfl⟩⟩

/-- C6: a stop command received while the session is already idle replies
with the Already Stopped error, changes no state field, issues no
cancellation, and faults nowhere, for every state with the joined flag
clear. -/
theorem C6_stop_when_idle (st : StreamStatus) (h : st.joined = false) :
    handleStop st =
      { st := st, replies := [Reply.err "**Already Stopped!**"], started := none } := by
  simp [handleStop, h]

/-- Witness for C6 at a concrete idle state. -/
theorem C6_stop_when_idle_witness :
    (StreamStatus.mk false false false ⟨"", "", ""⟩).joined = false
    ∧ handleStop (StreamStatus.mk false false false ⟨"", "", ""⟩) =
        { st := StreamStatus.mk false false false ⟨"", "", ""⟩,
          replies := [Reply.err "**Already Stopped!**"], started := none } :=
  ⟨rfl, C6_stop_when_idle (StreamStatus.mk false false false ⟨"", "", ""⟩) rfl⟩

/-- C7: a voice-membership event in which the bot itself goes from some
channel to no channel forces the session idle from every current state:
joined, joinsucc and playing all become false and a subsequent status
command reports Joined false, Playing false. -/
theorem C7_self_leave_forces_idle (cfg : Config) (st : StreamStatus)
    (ev : VoiceStateEvent) (hself : ev.oldIsSelf = true)
    (hold : ev.oldChannelId.isSome = true) (hnew : ev.newChannelId = none) :
    (handleVoiceStateUpdate cfg st ev).joined = false
    ∧ (handleVoiceStateUpdate cfg st ev).joinsucc = false
    ∧ (handleVoiceStateUpdate cfg st ev).playing = false
    ∧ handleStatus (handleVoiceStateUpdate cfg st ev) =
        Reply.info "Status" "Joined: false\nPlaying: false" := by
  have h1 : handleVoiceStateUpdate cfg st ev =
      { joined := false, joinsucc := false, playing := false,
        channelInfo := { guildId := cfg.guildId, channelId := cfg.videoChannelId,
                         cmdChannelId := cfg.cmdChannelId } } := by
    rw [handleVoiceStateUpdate]
    simp [hself, hold, hnew]
  rw [h1]
  exact ⟨rfl, rfl, rfl, rfl⟩

/-- Witness for C7: an active session and a concrete leave event. -/
theorem C7_self_leave_forces_idle_witness :
    (VoiceStateEvent.mk true true (some "v") none "g").oldIsSelf = true
    ∧ (VoiceStateEvent.mk true true (some "v") none "g").oldChannelId.isSome = true
    ∧ (VoiceStateEvent.mk true true (some "v") none "g").newChannelId = none
    ∧ ((handleVoiceStateUpdate ⟨"g", "v", "c"⟩ ⟨true, true, true, ⟨"g", "v", "c"⟩⟩
          (VoiceStateEvent.mk true true (some "v") none "g")).joined = false
      ∧ (handleVoiceStateUpdate ⟨"g", "v", "c"⟩ ⟨true, true, true, ⟨"g", "v", "c"⟩⟩
          (VoiceStateEvent.mk true true (some "v") none "g")).joinsucc = false
      ∧ (handleVoiceStateUpdate ⟨"g", "v", "c"⟩ ⟨true, true, true, ⟨"g", "v", "c"⟩⟩
          (VoiceStateEvent.mk true true (some "v") none "g")).playing = false
      ∧ handleStatus (handleVoiceStateUpdate ⟨"g", "v", "c"⟩
          ⟨true, true, true, ⟨"g", "v", "c"⟩⟩
          (VoiceStateEvent.mk true true (some "v") none "g")) =
          Reply.info "Status" "Joined: false\nPlaying: false") :=
  ⟨rfl, rfl, rfl,
   C7_self_leave_forces_idle ⟨"g", "v", "c"⟩ ⟨true, true, true, ⟨"g", "v", "c"⟩⟩
     (VoiceStateEvent.mk true true (some "v") none "g") rfl rfl rfl⟩

/-- C8: evaluation of the termination handlers.  A bare exit fires the
crash notice once, but a SIGINT or SIGTERM termination fires it twice —
once in the signal listener and once more when process.exit() emits the
exit event — refuting the at-most-once claim. -/
theorem C8_signal_notice_fires_twice :
    sendCrashCalls Termination.sigint = 2
    ∧ sendCrashCalls Termination.sigterm = 2
    ∧ sendCrashCalls Termination.exitEvent = 1
    ∧ ¬ ∀ t : Termination, sendCrashCalls t ≤ 1 :=
  ⟨rfl, rfl, rfl, fun h => absurd (h Termination.sigint) (by decide)⟩

/-- C9: when a ytplay or ytsearch invocation carries more than one
argument word, the query actually searched is the argument list with its
first word discarded; a single-word invocation searches that word
unchanged. -/
theorem C9_search_drops_first_word (cfg : Config) (st : StreamStatus) (ch : String)
    (ytr srt : Option String) (results : List String) (x : String) (xs : List String)
    (hj : st.joined = false) (hxs : xs ≠ [])
    (ht : String.intercalate " " xs ≠ "") :
    (handleYtplay cfg st ch (x :: xs) ytr srt).searched =
      some (String.intercalate " " xs)
    ∧ (handleYtsearch st (x :: xs) results).searched =
      some (String.intercalate " " xs)
    ∧ ∀ w : String, w ≠ "" →
        (handleYtplay cfg st ch [w] ytr srt).searched = some w
        ∧ (handleYtsearch st [w] results).searched = some w := by
  have hlen : 1 < (x :: xs).length := by
    cases xs with
    | nil => exact absurd rfl hxs
    | cons a l => simp
  have htitle : ytArgTitle (x :: xs) = String.intercalate " " xs := by
    rw [ytArgTitle, if_pos hlen]
    rfl
  have hw1 : ∀ w : String, ytArgTitle [w] = w := by
    intro w
    rw [ytArgTitle, if_neg (by simp)]
    rfl
  refine ⟨?_, ?_, ?_⟩
  · cases ytr <;> cases srt <;> simp [handleYtplay, hj, htitle, ht]
  · simp [handleYtsearch, htitle, ht]
  · intro w hw
    constructor
    · cases ytr <;> cases srt <;> simp [handleYtplay, hj, hw1, hw]
    · simp [handleYtsearch, hw1, hw]

/-- Witness for C9 at a concrete idle state and concrete word lists. -/
theorem C9_search_drops_first_word_witness :
    (StreamStatus.mk false false false ⟨"g", "v", "c"⟩).joined = false
    ∧ (["b", "c"] : List String) ≠ []
    ∧ String.intercalate " " ["b", "c"] ≠ ""
    ∧ (handleYtplay ⟨"g", "v", "c"⟩ (StreamStatus.mk false false false ⟨"g", "v", "c"⟩)
        "m" ["a", "b", "c"] none none).searched = some (String.intercalate " " ["b", "c"])
    ∧ (handleYtsearch (StreamStatus.mk false false false ⟨"g", "v", "c"⟩)
        ["a", "b", "c"] []).searched = some (String.intercalate " " ["b", "c"])
    ∧ (handleYtplay ⟨"g", "v", "c"⟩ (StreamStatus.mk false false false ⟨"g", "v", "c"⟩)
        "m" ["solo"] none none).searched = some "solo" :=
  ⟨rfl, by decide, by decide,
   (C9_search_drops_first_word ⟨"g", "v", "c"⟩
     (StreamStatus.mk false false false ⟨"g", "v", "c"⟩) "m" none none [] "a" ["b", "c"]
     rfl (by decide) (by decide)).1,
   (C9_search_drops_first_word ⟨"g", "v", "c"⟩
     (StreamStatus.mk false false false ⟨"g", "v", "c"⟩) "m" none none [] "a" ["b", "c"]
     rfl (by decide) (by decide)).2.1,
   ((C9_search_drops_first_word ⟨"g", "v", "c"⟩
     (StreamStatus.mk false false false ⟨"g", "v", "c"⟩) "m" none none [] "a" ["b", "c"]
     rfl (by decide) (by decide)).2.2 "solo" (by decide)).1⟩

end StreamBot
